import Mathlib

/-!
Verification of the CrisisMesh monitoring pipeline (backend/mesh_monitor.py
with its constants from backend/config.py).

The Python source is shallowly embedded: the telemetry source is a value of
type Option (List String) (none models a missing or unreadable exposure
point, the two conditions under which the Python code raises before any line
is parsed), floats are modelled as rationals, the process environment and
the wall clock are explicit parameters, and the append-only log directory is
a map from file names to row lists carried through the state. Python string
primitives (strip, split, int, float) are modelled structurally over
character lists.
-/

namespace CrisisMesh

/-- A per-neighbor telemetry record, as built by parse_batman_originators:
the dict with keys neighbor, last_seen_ms, tq, hop_count. -/
structure NeighborRecord where
  neighbor : String
  last_seen_ms : Int
  tq : Int
  hop_count : Int
deriving DecidableEq, Repr

/-- Python str.strip() with no argument: drop whitespace from both ends. -/
def trimChars (cs : List Char) : List Char :=
  ((cs.dropWhile Char.isWhitespace).reverse.dropWhile Char.isWhitespace).reverse

/-- Worker for pySplit: accumulate the current word (reversed) and cut at
whitespace runs. -/
def pyWordsAux : List Char → List Char → List (List Char)
  | [], acc => if acc.isEmpty then [] else [acc.reverse]
  | c :: cs, acc =>
    if c.isWhitespace then
      if acc.isEmpty then pyWordsAux cs [] else acc.reverse :: pyWordsAux cs []
    else pyWordsAux cs (c :: acc)

/-- Python str.split() with no argument: whitespace-run separated words,
empty pieces dropped. -/
def pySplit (cs : List Char) : List (List Char) := pyWordsAux cs []

/-- Worker for pySplitOn: cut at every occurrence of the separator. -/
def pySplitOnAux (sep : Char) : List Char → List Char → List (List Char)
  | [], acc => [acc.reverse]
  | x :: xs, acc =>
    if x == sep then acc.reverse :: pySplitOnAux sep xs []
    else pySplitOnAux sep xs (x :: acc)

/-- Python str.split(sep) for a one-character separator. -/
def pySplitOn (sep : Char) (cs : List Char) : List (List Char) :=
  pySplitOnAux sep cs []

/-- Python str.strip(c) for a single-character argument: remove every copy
of c from both ends. -/
def pyStrip (c : Char) (cs : List Char) : List Char :=
  ((cs.dropWhile (· == c)).reverse.dropWhile (· == c)).reverse

/-- Value of an all-digit character list, most significant first. -/
def digitsVal (cs : List Char) : Nat :=
  cs.foldl (fun a c => a * 10 + (c.toNat - 48)) 0

/-- Helper for pyInt: a nonempty decimal digit string, or failure. -/
def decDigits (cs : List Char) : Option Nat :=
  if cs ≠ [] ∧ cs.all Char.isDigit then some (digitsVal cs) else none

/-- Python int(s) on the token shapes this program feeds it: optional
surrounding whitespace, optional sign, then decimal digits; anything else
raises ValueError, modelled as none. -/
def pyInt (s : List Char) : Option Int :=
  match trimChars s with
  | '-' :: cs => (decDigits cs).map (fun n => -(n : Int))
  | '+' :: cs => (decDigits cs).map (fun n => (n : Int))
  | cs => (decDigits cs).map (fun n => (n : Int))

/-- One iteration of the parsing loop of parse_batman_originators: strip the
line, skip it when empty or when it starts with the header token Originator,
otherwise take the first whitespace token as the neighbor MAC, the first
token starting with TQ: for link quality (integer after the first colon),
the first token starting with an opening parenthesis for last-seen
milliseconds (after stripping parentheses), and hop_count 1; any failure
inside the try block (missing token or non-numeric text) skips the line. -/
def parseLine (line : String) : Option NeighborRecord :=
  if (trimChars line.toList).isEmpty
      || List.isPrefixOf "Originator".toList (trimChars line.toList) then none
  else
    match pySplit (trimChars line.toList) with
    | [] => none
    | mac :: rest =>
      match (mac :: rest).find? (fun p => List.isPrefixOf "TQ:".toList p) with
      | none => none
      | some tqTok =>
        match pyInt ((pySplitOn ':' tqTok).getD 1 []) with
        | none => none
        | some tq =>
          match (mac :: rest).find? (fun p => List.isPrefixOf "(".toList p) with
          | none => none
          | some lsTok =>
            match pyInt (pyStrip '(' lsTok) with
            | none => none
            | some ls => some ⟨String.mk mac, ls, tq, 1⟩

/-- parse_batman_originators: raises (error) when the originators path does
not exist, and reading an unreadable path raises the same way; on a readable
source every line is run through the per-line parser and failing lines are
silently dropped. -/
def parse_batman_originators (source : Option (List String)) :
    Except String (List NeighborRecord) :=
  match source with
  | none => Except.error "originators path does not exist or is unreadable"
  | some lines => Except.ok (lines.filterMap parseLine)

/-- max(0, min(255, tq)), the clamp both feature extractors apply. -/
def clampTQ (tq : Int) : Int := max 0 (min 255 tq)

/-- estimate_packet_loss: 0.5 * (1 - tq_clamped / 255.0). -/
def estimate_packet_loss (tq : Int) : ℚ :=
  (1 / 2) * (1 - (clampTQ tq : ℚ) / 255)

/-- estimate_signal_strength: tq_clamped / 255.0. -/
def estimate_signal_strength (tq : Int) : ℚ :=
  (clampTQ tq : ℚ) / 255

/-- Python float(s) on the token shapes relevant here: a decimal numeral
with an optional fractional part; anything else raises ValueError, modelled
as none. -/
def pyFloatCore (cs : List Char) : Option ℚ :=
  let intPart := cs.takeWhile Char.isDigit
  match cs.dropWhile Char.isDigit with
  | [] => if intPart.isEmpty then none else some (digitsVal intPart : ℚ)
  | '.' :: frac =>
    if frac.all Char.isDigit ∧ (intPart ≠ [] ∨ frac ≠ []) then
      some ((digitsVal intPart : ℚ) + (digitsVal frac : ℚ) / (10 ^ frac.length))
    else none
  | _ => none

/-- Python float(s): whitespace and sign handling around pyFloatCore. -/
def pyFloat (s : String) : Option ℚ :=
  match trimChars s.toList with
  | '-' :: cs => (pyFloatCore cs).map Neg.neg
  | '+' :: cs => pyFloatCore cs
  | cs => pyFloatCore cs

/-- get_battery_pct: read CRISIS_BATTERY_PCT from the environment (the env
parameter); an unset or empty value, or one float() rejects, falls back to
80.0. -/
def get_battery_pct (env : Option String) : ℚ :=
  match env with
  | none => 80
  | some v => if v = "" then 80 else (pyFloat v).getD 80

/-! Constants from backend/config.py. The prediction threshold and the two
intervals are part of the configuration surface, so they appear as
parameters of the functions below and are instantiated with these values by
the tick of the main loop. -/

/-- config.PREDICTION_THRESHOLD = 0.7. -/
def PREDICTION_THRESHOLD : ℚ := 7 / 10

/-- config.POLL_INTERVAL_SEC = 2. -/
def POLL_INTERVAL_SEC : ℚ := 2

/-- config.PREDICT_INTERVAL_SEC = 5. -/
def PREDICT_INTERVAL_SEC : ℚ := 5

/-- The feature vector [signal_strength, packet_loss, hop_count,
battery_pct] assembled identically by log_metrics and
maybe_predict_and_act. -/
structure FeatureVector where
  signal_strength : ℚ
  packet_loss : ℚ
  hop_count : Int
  battery_pct : ℚ

/-- Features of one neighbor record under a given CRISIS_BATTERY_PCT
environment value. -/
def features (env : Option String) (n : NeighborRecord) : FeatureVector :=
  ⟨estimate_signal_strength n.tq, estimate_packet_loss n.tq, n.hop_count,
    get_battery_pct env⟩

/-- The loaded model, seen only through predict_proba on one feature row:
an opaque scoring function to a failure probability. -/
def Classifier : Type := FeatureVector → ℚ

/-- The observable outcome of one maybe_predict_and_act call: the updated
LAST_PREDICT_TIME global, the PREDICT log lines (neighbor, probability), and
the ACTION log lines (neighbors whose probability reached the threshold). -/
structure PredictOutcome where
  last_predict_time : ℚ
  scored : List (String × ℚ)
  actions : List String

/-- maybe_predict_and_act: return unchanged when no model is loaded or when
now - LAST_PREDICT_TIME < PREDICT_INTERVAL_SEC; otherwise set
LAST_PREDICT_TIME to now, score every neighbor in order, and emit an action
intent for each neighbor whose probability is ≥ the threshold. -/
def maybe_predict_and_act (model : Option Classifier) (threshold : ℚ)
    (predict_interval : ℚ) (env : Option String) (now : ℚ)
    (last_predict_time : ℚ) (neighbors : List NeighborRecord) :
    PredictOutcome :=
  match model with
  | none => ⟨last_predict_time, [], []⟩
  | some m =>
    if now - last_predict_time < predict_interval then
      ⟨last_predict_time, [], []⟩
    else
      let scored := neighbors.map (fun n => (n.neighbor, m (features env n)))
      ⟨now, scored,
        (scored.filter (fun p => decide (threshold ≤ p.2))).map Prod.fst⟩

/-- One CSV row of a metrics file: the header row, or a data row with the
columns timestamp, neighbor, signal_strength, packet_loss, hop_count,
battery_pct, will_fail. -/
inductive LogRow where
  | header : LogRow
  | data (ts : String) (neighbor : String) (signal_strength : ℚ)
      (packet_loss : ℚ) (hop_count : Int) (battery_pct : ℚ)
      (will_fail : Nat) : LogRow

/-- The state of the LOG_DIR directory: whether it exists, and the rows of
each file in it (none = file absent). -/
structure LogState where
  dir_exists : Bool
  files : String → Option (List LogRow)

/-- The file name log_metrics writes to on a given UTC date:
metrics_{date}.csv inside LOG_DIR. -/
def log_file_name (date : String) : String :=
  "metrics_" ++ date ++ ".csv"

/-- The data row log_metrics writes for one neighbor: features computed
inline and will_fail fixed at 0. -/
def metricRow (ts : String) (env : Option String) (n : NeighborRecord) :
    LogRow :=
  LogRow.data ts n.neighbor (estimate_signal_strength n.tq)
    (estimate_packet_loss n.tq) n.hop_count (get_battery_pct env) 0

/-- log_metrics: create LOG_DIR if needed, resolve the file by the current
UTC date, open it in append mode (creating it), write the header only when
the file did not exist before the call, then one row per neighbor. -/
def log_metrics (date : String) (ts : String) (env : Option String)
    (neighbors : List NeighborRecord) (st : LogState) : LogState :=
  let path := log_file_name date
  let base := match st.files path with
    | none => [LogRow.header]
    | some rows => rows
  { dir_exists := true,
    files := fun p =>
      if p = path then some (base ++ neighbors.map (metricRow ts env))
      else st.files p }

/-- The mutable process state the main loop threads through ticks: the MODEL
and LAST_PREDICT_TIME globals and the log directory. -/
structure MonState where
  model : Option Classifier
  last_predict_time : ℚ
  log : LogState

/-- The external circumstances of one tick: the content of the originators
path (none = missing or unreadable), whether opening the log file for append
succeeds, the UTC date and timestamp, the CRISIS_BATTERY_PCT environment
value, and the time.time() clock reading. -/
structure TickEnv where
  source : Option (List String)
  log_ok : Bool
  date : String
  ts : String
  battery_env : Option String
  now : ℚ

/-- What one loop iteration prints beside the neighbor count: the caught
error if the tick raised, and the PREDICT / ACTION lines of the predict
step. -/
structure TickResult where
  error : Option String
  scored : List (String × ℚ)
  actions : List String

/-- One iteration of the while-loop body of main, inside its try/except: a
read failure aborts the tick before any update; a log-open failure aborts it
after the mkdir but before the file write and before the predict step; on
success the log append and then the predict step run. The except clause
catches every exception and records it as the tick's error. -/
def run_tick (st : MonState) (e : TickEnv) : MonState × TickResult :=
  match parse_batman_originators e.source with
  | Except.error msg => (st, ⟨some msg, [], []⟩)
  | Except.ok ns =>
    if e.log_ok then
      let log' := log_metrics e.date e.ts e.battery_env ns st.log
      let o := maybe_predict_and_act st.model PREDICTION_THRESHOLD
        PREDICT_INTERVAL_SEC e.battery_env e.now st.last_predict_time ns
      ({ st with log := log', last_predict_time := o.last_predict_time },
        ⟨none, o.scored, o.actions⟩)
    else
      ({ st with log := { st.log with dir_exists := true } },
        ⟨some "LogWriteError", [], []⟩)

/-- The while-loop of main over a finite schedule of tick circumstances:
every tick runs, whatever the previous ticks did. -/
def run_loop (st : MonState) (envs : List TickEnv) :
    MonState × List TickResult :=
  match envs with
  | [] => (st, [])
  | e :: rest =>
    let step := run_tick st e
    let later := run_loop step.1 rest
    (later.1, step.2 :: later.2)

/-! Row-counting helpers used to state the MetricLog properties. -/

/-- Whether a row is the header row. -/
def isHeader : LogRow → Bool
  | LogRow.header => true
  | LogRow.data _ _ _ _ _ _ _ => false

/-- will_fail of a data row, 0 for the header. -/
def rowLabel : LogRow → Nat
  | LogRow.header => 0
  | LogRow.data _ _ _ _ _ _ w => w

/-- Number of header rows in a file body. -/
def headerCount (rows : List LogRow) : Nat :=
  rows.countP isHeader

/-- Number of data rows in a file body. -/
def dataCount (rows : List LogRow) : Nat :=
  rows.countP (fun r => !isHeader r)

/-- Number of data rows carrying a nonzero will_fail label. -/
def labeledCount (rows : List LogRow) : Nat :=
  rows.countP (fun r => !isHeader r && rowLabel r ≠ 0)

/-- The first whitespace token of a stripped line, if any: the string the
parser would use as a neighbor MAC. -/
def firstToken (line : String) : Option String :=
  ((pySplit (trimChars line.toList)).head?).map String.mk

/-! Concrete fixtures used by the closed instances of the theorems below. -/

/-- A classifier that reports failure probability 1 for every neighbor. -/
def constClassifier : Classifier := fun _ => 1

/-- A one-element neighbor list. -/
def oneNeighbor : List NeighborRecord := [⟨"aa:bb:cc:dd:ee:ff", 340, 200, 1⟩]

/-- A classifier that reports failure probability 0.85 for every
neighbor. -/
def midClassifier : Classifier := fun _ => 85 / 100

/-- A log directory that does not exist yet and holds no files. -/
def emptyLog : LogState := ⟨false, fun _ => none⟩

/-- A process state with a loaded model, LAST_PREDICT_TIME 0 and an empty
log directory. -/
def readyState : MonState := ⟨some constClassifier, 0, emptyLog⟩

/-- Tick circumstances under which the telemetry read succeeds with one
well-formed line but opening the log file fails, at a clock reading far past
the predict interval. -/
def logFailEnv : TickEnv :=
  ⟨some ["aa:bb:cc:dd:ee:ff TQ:200 (340"], false, "2024-01-01",
    "2024-01-01T00:00:00", none, 100⟩

/-- Tick circumstances under which the telemetry source is missing. -/
def sourceDownEnv : TickEnv :=
  ⟨none, true, "2024-01-01", "2024-01-01T00:00:00", none, 100⟩

/-!
### Theorems
-/

/-- Helper: a line the parser accepts has the first whitespace token of its
stripped text as its neighbor field. -/
theorem parseLine_firstToken {line : String} {r : NeighborRecord}
    (h : parseLine line = some r) : firstToken line = some r.neighbor := by
  unfold parseLine at h
  unfold firstToken
  split at h
  · exact absurd h (by simp)
  · split at h
    · exact absurd h (by simp)
    · rename_i mac rest hsp
      rw [hsp]
      split at h
      · exact absurd h (by simp)
      · split at h
        · exact absurd h (by simp)
        · split at h
          · exact absurd h (by simp)
          · split at h
            · exact absurd h (by simp)
            · injection h with h
              subst h
              rfl

/-- Helper: the neighbor fields of the parsed records form a sublist of the
first tokens of the input lines. -/
theorem parse_neighbors_sublist (lines : List String) :
    ((lines.filterMap parseLine).map NeighborRecord.neighbor).Sublist
      (lines.filterMap firstToken) := by
  induction lines with
  | nil => simp
  | cons l ls ih =>
    cases hl : parseLine l with
    | none =>
      simp only [List.filterMap_cons, hl]
      cases hf : firstToken l with
      | none => exact ih
      | some t => exact ih.cons t
    | some r =>
      have hf := parseLine_firstToken hl
      simp only [List.filterMap_cons, hl, hf, List.map_cons]
      exact ih.cons₂ r.neighbor

/-- Claim C4: for every integer link quality value, signal_strength(lq) +
2 * packet_loss(lq) equals 1 exactly, with the clamp applied inside both
extractors. -/
theorem signal_loss_complementary (lq : Int) :
    estimate_signal_strength lq + 2 * estimate_packet_loss lq = 1 := by
  unfold estimate_signal_strength estimate_packet_loss
  ring

/-- Claim C4 witness: the identity at link quality 200. -/
theorem signal_loss_complementary_witness :
    estimate_signal_strength 200 + 2 * estimate_packet_loss 200 = 1 :=
  signal_loss_complementary 200

/-- Claim C6 counterexample: with the override CRISIS_BATTERY_PCT set to
150, get_battery_pct returns 150, which is outside [0, 100]; the code
returns the parsed override without clamping it. -/
theorem battery_range_counterexample :
    get_battery_pct (some "150") = 150 ∧
      ¬ get_battery_pct (some "150") ≤ 100 := by
  have h : get_battery_pct (some "150") = 150 := by rfl
  exact ⟨h, by rw [h]; norm_num⟩

/-- Claim C6 (amended): get_battery_pct returns the parsed override
whenever the override is nonempty and parses as a number (even outside
[0, 100]), and returns the default 80.0, which lies in [0, 100], when the
override is unset, empty or unparsable; malformed input raises no error. -/
theorem get_battery_pct_spec :
    (∀ (v : String) (q : ℚ), v ≠ "" → pyFloat v = some q →
      get_battery_pct (some v) = q) ∧
    (∀ env : Option String,
      env = none ∨ env = some "" ∨ (∃ v, env = some v ∧ pyFloat v = none) →
      get_battery_pct env = 80 ∧ 0 ≤ get_battery_pct env ∧
        get_battery_pct env ≤ 100) := by
  constructor
  · intro v q hne hq
    simp [get_battery_pct, hne, hq]
  · intro env h
    rcases h with h | h | ⟨v, hv, hnone⟩
    · subst h
      have h80 : get_battery_pct none = 80 := rfl
      refine ⟨h80, by rw [h80]; norm_num, by rw [h80]; norm_num⟩
    · subst h
      have h80 : get_battery_pct (some "") = 80 := rfl
      refine ⟨h80, by rw [h80]; norm_num, by rw [h80]; norm_num⟩
    · subst hv
      have h80 : get_battery_pct (some v) = 80 := by
        simp [get_battery_pct, hnone]
      refine ⟨h80, by rw [h80]; norm_num, by rw [h80]; norm_num⟩

/-- Claim C6 witness: a parsable override 65 is returned as is, and the
malformed override junk falls back to 80. -/
theorem get_battery_pct_spec_witness :
    get_battery_pct (some "65") = 65 ∧ get_battery_pct (some "junk") = 80 :=
  ⟨get_battery_pct_spec.1 "65" 65 (by decide) (by rfl),
    (get_battery_pct_spec.2 (some "junk")
      (Or.inr (Or.inr ⟨"junk", rfl, by rfl⟩))).1⟩

/-- Claim C3: the telemetry read fails exactly when the source is missing
or unreadable; on readable input every line the per-line parser rejects is
silently skipped and every line it accepts contributes exactly one record,
so the input with one well-formed line and one line missing its TQ: token
yields exactly the one record of the well-formed line. -/
theorem tablesource_read_spec :
    (∀ source : Option (List String),
      (∃ e, parse_batman_originators source = Except.error e) ↔
        source = none) ∧
    (∀ (lines : List String) (rs : List NeighborRecord),
      parse_batman_originators (some lines) = Except.ok rs →
      rs.length = lines.countP (fun l => (parseLine l).isSome)) ∧
    parse_batman_originators
      (some ["aa:bb:cc:dd:ee:ff TQ:200 (340", "11:22:33:44:55:66 123 (100"])
      = Except.ok [⟨"aa:bb:cc:dd:ee:ff", 340, 200, 1⟩] := by
  refine ⟨?_, ?_, by rfl⟩
  · intro source
    cases source with
    | none => simp [parse_batman_originators]
    | some lines => simp [parse_batman_originators]
  · intro lines rs hrs
    have h : lines.filterMap parseLine = rs := by
      simpa [parse_batman_originators] using hrs
    subst h
    exact List.length_filterMap_eq_countP parseLine lines

/-- Claim C3 witness: the record count of the mixed two-line input equals
the number of lines the parser accepts. -/
theorem tablesource_read_spec_witness :
    ([(⟨"aa:bb:cc:dd:ee:ff", 340, 200, 1⟩ : NeighborRecord)]).length =
      ["aa:bb:cc:dd:ee:ff TQ:200 (340",
        "11:22:33:44:55:66 123 (100"].countP
        (fun l => (parseLine l).isSome) :=
  tablesource_read_spec.2.1 _ _ (by rfl)

/-- Claim C7 counterexample: a successful read of two well-formed lines
that repeat the same MAC returns two records with the same neighbor_id; the
parser performs no deduplication. -/
theorem parse_duplicate_counterexample :
    parse_batman_originators (some ["aa:bb:cc:dd:ee:ff TQ:200 (340",
      "aa:bb:cc:dd:ee:ff TQ:100 (100"]) =
      Except.ok [⟨"aa:bb:cc:dd:ee:ff", 340, 200, 1⟩,
        ⟨"aa:bb:cc:dd:ee:ff", 100, 100, 1⟩] ∧
    ¬ (([⟨"aa:bb:cc:dd:ee:ff", 340, 200, 1⟩,
        ⟨"aa:bb:cc:dd:ee:ff", 100, 100, 1⟩] : List NeighborRecord).map
        NeighborRecord.neighbor).Nodup :=
  ⟨by rfl, by decide⟩

/-- Claim C7 (amended): the neighbor_id values of a successful read are
pairwise distinct whenever the first whitespace tokens of the input lines
are pairwise distinct; the parser itself does not deduplicate, so repeated
MACs in the input are returned repeated. -/
theorem parse_nodup_of_distinct_first_tokens (lines : List String)
    (h : (lines.filterMap firstToken).Nodup) (rs : List NeighborRecord)
    (hrs : parse_batman_originators (some lines) = Except.ok rs) :
    (rs.map NeighborRecord.neighbor).Nodup := by
  have heq : lines.filterMap parseLine = rs := by
    simpa [parse_batman_originators] using hrs
  subst heq
  exact (parse_neighbors_sublist lines).nodup h

/-- Claim C7 witness: two lines with distinct MACs parse to records with
distinct neighbor_ids. -/
theorem parse_nodup_witness :
    (([⟨"aa:bb:cc:dd:ee:ff", 340, 200, 1⟩, ⟨"11:22:33:44:55:66", 100, 50, 1⟩]
      : List NeighborRecord).map NeighborRecord.neighbor).Nodup :=
  parse_nodup_of_distinct_first_tokens
    ["aa:bb:cc:dd:ee:ff TQ:200 (340", "11:22:33:44:55:66 TQ:50 (100"]
    (by decide) _ (by rfl)

/-- Claim C2: with a loaded model the classifier scores every current
neighbor and last_predict_time is set to now exactly when
now - last_predict_time has reached the predict interval; otherwise, or
with no model, nothing is scored and last_predict_time is unchanged; with
interval 5 two predict attempts 1 second apart trigger the classifier
exactly once. -/
theorem predict_rate_limiting :
    (∀ (m : Classifier) (θ iv : ℚ) (env : Option String) (now lpt : ℚ)
        (ns : List NeighborRecord), iv ≤ now - lpt →
      (maybe_predict_and_act (some m) θ iv env now lpt ns).last_predict_time
          = now ∧
      (maybe_predict_and_act (some m) θ iv env now lpt ns).scored =
        ns.map (fun n => (n.neighbor, m (features env n)))) ∧
    (∀ (m : Classifier) (θ iv : ℚ) (env : Option String) (now lpt : ℚ)
        (ns : List NeighborRecord), now - lpt < iv →
      maybe_predict_and_act (some m) θ iv env now lpt ns = ⟨lpt, [], []⟩) ∧
    (∀ (θ iv : ℚ) (env : Option String) (now lpt : ℚ)
        (ns : List NeighborRecord),
      maybe_predict_and_act none θ iv env now lpt ns = ⟨lpt, [], []⟩) ∧
    (∀ (m : Classifier) (θ : ℚ) (env : Option String) (t0 lpt0 : ℚ)
        (ns : List NeighborRecord), 5 ≤ t0 - lpt0 →
      (maybe_predict_and_act (some m) θ 5 env t0 lpt0 ns).scored.length =
          ns.length ∧
      (maybe_predict_and_act (some m) θ 5 env (t0 + 1)
        (maybe_predict_and_act (some m) θ 5 env t0 lpt0
          ns).last_predict_time ns).scored = []) := by
  refine ⟨?_, ?_, ?_, ?_⟩
  · intro m θ iv env now lpt ns h
    constructor <;> simp [maybe_predict_and_act, not_lt.2 h]
  · intro m θ iv env now lpt ns h
    simp [maybe_predict_and_act, h]
  · intro θ iv env now lpt ns
    rfl
  · intro m θ env t0 lpt0 ns h
    have h1 : (maybe_predict_and_act (some m) θ 5 env t0 lpt0
        ns).last_predict_time = t0 := by
      simp [maybe_predict_and_act, not_lt.2 h]
    refine ⟨by simp [maybe_predict_and_act, not_lt.2 h], ?_⟩
    rw [h1]
    have h2 : (t0 + 1) - t0 < (5 : ℚ) := by norm_num
    simp [maybe_predict_and_act, h2]

/-- Claim C2 witness: with interval 5, an attempt at time 100 (last predict
at 0) scores the one neighbor and an attempt 1 second later scores
nothing. -/
theorem predict_rate_limiting_witness :
    (maybe_predict_and_act (some constClassifier) PREDICTION_THRESHOLD 5
      none 100 0 oneNeighbor).scored.length = oneNeighbor.length ∧
    (maybe_predict_and_act (some constClassifier) PREDICTION_THRESHOLD 5
      none (100 + 1)
      (maybe_predict_and_act (some constClassifier) PREDICTION_THRESHOLD 5
        none 100 0 oneNeighbor).last_predict_time oneNeighbor).scored = [] :=
  predict_rate_limiting.2.2.2 constClassifier PREDICTION_THRESHOLD none 100 0
    oneNeighbor (by norm_num)

/-- Claim C9: on a predict tick an action intent is recorded exactly for
the neighbors whose failure probability reaches the configured threshold,
and for no neighbor scoring below it; in particular a score of 0.85
against threshold 0.7 records the action intent. -/
theorem action_threshold_policy :
    (∀ (m : Classifier) (θ iv : ℚ) (env : Option String) (now lpt : ℚ)
        (ns : List NeighborRecord) (x : String), iv ≤ now - lpt →
      (x ∈ (maybe_predict_and_act (some m) θ iv env now lpt ns).actions ↔
        ∃ n ∈ ns, n.neighbor = x ∧ θ ≤ m (features env n))) ∧
    (∀ (m : Classifier) (env : Option String) (now lpt : ℚ)
        (n : NeighborRecord), 5 ≤ now - lpt →
      m (features env n) = 85 / 100 →
      (maybe_predict_and_act (some m) (7 / 10) 5 env now lpt [n]).actions =
        [n.neighbor]) := by
  constructor
  · intro m θ iv env now lpt ns x h
    simp only [maybe_predict_and_act, not_lt.2 h, if_false]
    simp [List.mem_map, List.mem_filter, decide_eq_true_iff]
    constructor
    · rintro ⟨q, ⟨a, ha, hax, hq⟩, hθ⟩
      exact ⟨a, ha, hax, by rw [hq]; exact hθ⟩
    · rintro ⟨n, hn, hx, hθ⟩
      exact ⟨m (features env n), ⟨n, hn, hx, rfl⟩, hθ⟩
  · intro m env now lpt n h hm
    have hnl : ¬ (now - lpt < (5 : ℚ)) := not_lt.2 h
    have hle : (7 / 10 : ℚ) ≤ 85 / 100 := by norm_num
    simp [maybe_predict_and_act, hnl, hm, List.filter, hle]

/-- Claim C9 witness: a classifier scoring 0.85 against threshold 0.7
records the action intent for the single neighbor. -/
theorem action_threshold_policy_witness :
    (maybe_predict_and_act (some midClassifier) (7 / 10) 5 none 100 0
      oneNeighbor).actions = ["aa:bb:cc:dd:ee:ff"] :=
  action_threshold_policy.2 midClassifier none 100 0
    ⟨"aa:bb:cc:dd:ee:ff", 340, 200, 1⟩ (by norm_num) rfl

/-- Helper: distinct dates resolve to distinct metric file names. -/
theorem log_file_name_inj {d1 d2 : String}
    (h : log_file_name d1 = log_file_name d2) : d1 = d2 := by
  unfold log_file_name at h
  have h2 := congrArg String.data h
  simp only [String.data_append] at h2
  have h3 := List.append_cancel_right h2
  have h4 := List.append_cancel_left h3
  cases d1
  cases d2
  exact congrArg String.mk h4

/-- Helper: the rows of the file an append targets: the header when the
file was absent, the prior rows otherwise, followed by one data row per
record. -/
theorem log_metrics_files_self (date ts : String) (env : Option String)
    (ns : List NeighborRecord) (st : LogState) :
    (log_metrics date ts env ns st).files (log_file_name date) =
      some ((st.files (log_file_name date)).elim [LogRow.header] id ++
        ns.map (metricRow ts env)) := by
  cases hf : st.files (log_file_name date) <;> simp [log_metrics, hf]

/-- Helper: an append touches no file other than the one its date names. -/
theorem log_metrics_files_other (date ts : String) (env : Option String)
    (ns : List NeighborRecord) (st : LogState) (q : String)
    (hq : q ≠ log_file_name date) :
    (log_metrics date ts env ns st).files q = st.files q := by
  simp [log_metrics, hq]

/-- Claim C5: one append writes exactly one data row per record, none of
them labeled, into the file named by the given UTC date, leaving every
other file untouched; the header is present exactly once after the append,
appearing only when the file did not exist; appends on two distinct UTC
dates hit two distinct files, each ending up with exactly one header
row. -/
theorem metric_log_spec :
    (∀ (date ts : String) (env : Option String) (ns : List NeighborRecord)
        (st : LogState),
      dataCount (((log_metrics date ts env ns st).files
          (log_file_name date)).getD []) =
        dataCount ((st.files (log_file_name date)).getD []) + ns.length ∧
      labeledCount (((log_metrics date ts env ns st).files
          (log_file_name date)).getD []) =
        labeledCount ((st.files (log_file_name date)).getD []) ∧
      headerCount (((log_metrics date ts env ns st).files
          (log_file_name date)).getD []) =
        (st.files (log_file_name date)).elim 1 headerCount ∧
      (∀ q, q ≠ log_file_name date →
        (log_metrics date ts env ns st).files q = st.files q)) ∧
    (∀ (d1 d2 ts1 ts2 : String) (env1 env2 : Option String)
        (ns1 ns2 : List NeighborRecord) (st : LogState), d1 ≠ d2 →
      st.files (log_file_name d1) = none →
      st.files (log_file_name d2) = none →
      log_file_name d1 ≠ log_file_name d2 ∧
      headerCount (((log_metrics d2 ts2 env2 ns2
          (log_metrics d1 ts1 env1 ns1 st)).files
          (log_file_name d1)).getD []) = 1 ∧
      headerCount (((log_metrics d2 ts2 env2 ns2
          (log_metrics d1 ts1 env1 ns1 st)).files
          (log_file_name d2)).getD []) = 1) := by
  constructor
  · intro date ts env ns st
    refine ⟨?_, ?_, ?_, ?_⟩
    · cases hf : st.files (log_file_name date) with
      | none =>
        simp [log_metrics, hf, dataCount, headerCount, isHeader, metricRow,
          List.countP_append, List.countP_map, Function.comp]
      | some rows =>
        simp [log_metrics, hf, dataCount, isHeader, metricRow,
          List.countP_append, List.countP_map, Function.comp]
    · cases hf : st.files (log_file_name date) with
      | none =>
        simp [log_metrics, hf, labeledCount, isHeader, rowLabel, metricRow,
          List.countP_append, List.countP_map, Function.comp]
      | some rows =>
        simp [log_metrics, hf, labeledCount, isHeader, rowLabel, metricRow,
          List.countP_append, List.countP_map, Function.comp]
    · cases hf : st.files (log_file_name date) with
      | none =>
        simp [log_metrics, hf, headerCount, isHeader, metricRow,
          List.countP_append, List.countP_map, Function.comp]
      | some rows =>
        simp [log_metrics, hf, headerCount, isHeader, metricRow,
          List.countP_append, List.countP_map, Function.comp]
    · intro q hq
      simp [log_metrics, hq]
  · intro d1 d2 ts1 ts2 env1 env2 ns1 ns2 st hd h1 h2
    have hne : log_file_name d1 ≠ log_file_name d2 :=
      fun hc => hd (log_file_name_inj hc)
    have e1 : (log_metrics d1 ts1 env1 ns1 st).files (log_file_name d1) =
        some ([LogRow.header] ++ ns1.map (metricRow ts1 env1)) := by
      rw [log_metrics_files_self, h1]
      rfl
    have e1unch : (log_metrics d2 ts2 env2 ns2
        (log_metrics d1 ts1 env1 ns1 st)).files (log_file_name d1) =
        (log_metrics d1 ts1 env1 ns1 st).files (log_file_name d1) :=
      log_metrics_files_other d2 ts2 env2 ns2 _ _ hne
    have e2base : (log_metrics d1 ts1 env1 ns1 st).files (log_file_name d2)
        = none := by
      rw [log_metrics_files_other d1 ts1 env1 ns1 st _ (Ne.symm hne)]
      exact h2
    have e2 : (log_metrics d2 ts2 env2 ns2
        (log_metrics d1 ts1 env1 ns1 st)).files (log_file_name d2) =
        some ([LogRow.header] ++ ns2.map (metricRow ts2 env2)) := by
      rw [log_metrics_files_self, e2base]
      rfl
    refine ⟨hne, ?_, ?_⟩
    · rw [e1unch, e1]
      simp [headerCount, isHeader, metricRow, List.countP_append,
        List.countP_map, Function.comp]
    · rw [e2]
      simp [headerCount, isHeader, metricRow, List.countP_append,
        List.countP_map, Function.comp]

/-- Claim C5 witness: appends on the dates 2024-01-01 and 2024-01-02 over
an empty directory produce two distinct files, each with exactly one header
row. -/
theorem metric_log_spec_witness :
    log_file_name "2024-01-01" ≠ log_file_name "2024-01-02" ∧
    headerCount (((log_metrics "2024-01-02" "t2" none oneNeighbor
      (log_metrics "2024-01-01" "t1" none oneNeighbor emptyLog)).files
      (log_file_name "2024-01-01")).getD []) = 1 ∧
    headerCount (((log_metrics "2024-01-02" "t2" none oneNeighbor
      (log_metrics "2024-01-01" "t1" none oneNeighbor emptyLog)).files
      (log_file_name "2024-01-02")).getD []) = 1 :=
  metric_log_spec.2 "2024-01-01" "2024-01-02" "t1" "t2" none none
    oneNeighbor oneNeighbor emptyLog (by decide) rfl rfl

/-- Claim C10: appending an empty record list still creates LOG_DIR and,
when the current date's file is absent, creates that file containing
exactly the header row and no data rows. -/
theorem empty_append_creates_header_file (date ts : String)
    (env : Option String) (st : LogState)
    (h : st.files (log_file_name date) = none) :
    (log_metrics date ts env [] st).dir_exists = true ∧
    (log_metrics date ts env [] st).files (log_file_name date) =
      some [LogRow.header] := by
  simp [log_metrics, h]

/-- Claim C10 witness: the empty append on an empty directory leaves a
header-only file for the date 2024-01-01. -/
theorem empty_append_creates_header_file_witness :
    (log_metrics "2024-01-01" "t1" none [] emptyLog).dir_exists = true ∧
    (log_metrics "2024-01-01" "t1" none [] emptyLog).files
      (log_file_name "2024-01-01") = some [LogRow.header] :=
  empty_append_creates_header_file "2024-01-01" "t1" none emptyLog rfl

/-- Helper: the loop performs one iteration per scheduled tick, whatever
the ticks do. -/
theorem run_loop_length (st : MonState) (envs : List TickEnv) :
    ((run_loop st envs).2).length = envs.length := by
  induction envs generalizing st with
  | nil => rfl
  | cons e rest ih => simp [run_loop, ih]

/-- Claim C1: tick failures are caught: the loop performs one iteration per
tick no matter what each tick does; a tick whose source read fails reports
the caught error, performs no scoring and leaves the state untouched; and
any tick that reports an error leaves the model, last_predict_time and the
log files exactly as they were, with no scoring. -/
theorem monitor_loop_survives_failures :
    (∀ (st : MonState) (envs : List TickEnv),
      ((run_loop st envs).2).length = envs.length) ∧
    (∀ (st : MonState) (e : TickEnv), e.source = none →
      (run_tick st e).1 = st ∧ ((run_tick st e).2).error.isSome ∧
      ((run_tick st e).2).scored = []) ∧
    (∀ (st : MonState) (e : TickEnv), ((run_tick st e).2).error.isSome →
      (run_tick st e).1.model = st.model ∧
      (run_tick st e).1.last_predict_time = st.last_predict_time ∧
      (run_tick st e).1.log.files = st.log.files ∧
      ((run_tick st e).2).scored = []) := by
  refine ⟨run_loop_length, ?_, ?_⟩
  · intro st e h
    simp [run_tick, parse_batman_originators, h]
  · intro st e herr
    cases hp : parse_batman_originators e.source with
    | error msg => simp [run_tick, hp]
    | ok ns =>
      by_cases hl : e.log_ok
      · rw [run_tick] at herr
        simp [hp, hl] at herr
      · simp [run_tick, hp, hl]

/-- Claim C1 witness: a tick with the telemetry source missing leaves the
ready state untouched and reports the caught error. -/
theorem monitor_loop_survives_failures_witness :
    (run_tick readyState sourceDownEnv).1 = readyState ∧
    ((run_tick readyState sourceDownEnv).2).error.isSome ∧
    ((run_tick readyState sourceDownEnv).2).scored = [] :=
  monitor_loop_survives_failures.2.1 readyState sourceDownEnv rfl

/-- Claim C8 counterexample: a tick whose log append fails, taken in a
state with a loaded model and the predict step overdue, performs no scoring
and leaves last_predict_time untouched: the predict step of that same tick
is not evaluated, contrary to the claim, even though the loop survives. -/
theorem log_failure_skips_predict_counterexample :
    readyState.model.isSome ∧
    PREDICT_INTERVAL_SEC ≤ logFailEnv.now - readyState.last_predict_time ∧
    ((run_tick readyState logFailEnv).2).error.isSome ∧
    ((run_tick readyState logFailEnv).2).scored = [] ∧
    (run_tick readyState logFailEnv).1.last_predict_time =
      readyState.last_predict_time := by
  refine ⟨rfl, ?_, rfl, rfl, rfl⟩
  show (5 : ℚ) ≤ 100 - 0
  norm_num

/-- Claim C8 (amended): if the log append fails the loop does not crash:
the tick's error is caught and reported, and every remaining tick still
runs; but the remainder of the failed tick is skipped, so no rows are
written, no scoring happens and last_predict_time is unchanged — the
predict step of that same tick is not evaluated. -/
theorem log_failure_aborts_tick (st : MonState) (e : TickEnv)
    (lines : List String) (hsrc : e.source = some lines)
    (hlog : e.log_ok = false) :
    ((run_tick st e).2).error = some "LogWriteError" ∧
    ((run_tick st e).2).scored = [] ∧ ((run_tick st e).2).actions = [] ∧
    (run_tick st e).1.last_predict_time = st.last_predict_time ∧
    (run_tick st e).1.model = st.model ∧
    (run_tick st e).1.log.files = st.log.files ∧
    (∀ envs : List TickEnv,
      ((run_loop st (e :: envs)).2).length = envs.length + 1) := by
  refine ⟨?_, ?_, ?_, ?_, ?_, ?_, ?_⟩ <;>
    simp [run_tick, run_loop, parse_batman_originators, hsrc, hlog,
      run_loop_length]

/-- Claim C8 witness: the caught log-write failure of the concrete failing
tick is reported as the tick's error. -/
theorem log_failure_aborts_tick_witness :
    ((run_tick readyState logFailEnv).2).error = some "LogWriteError" :=
  (log_failure_aborts_tick readyState logFailEnv
    ["aa:bb:cc:dd:ee:ff TQ:200 (340"] rfl rfl).1

end CrisisMesh
